import Mathlib

set_option maxRecDepth 65536
set_option maxHeartbeats 4000000

/-!
Verification of `src/dataSliderJS.h` from the ESPUI repository.

The header defines exactly two flash-resident (PROGMEM) constants:

* `JS_SLIDER` — a C++ raw string literal holding the plain-text
  range-slider script, and
* `JS_SLIDER_GZIP` — a byte array declared with size 869 holding a
  gzip-compressed encoding of the script.

Both constants are transcribed from the source below.  A standard gzip
decompressor (RFC 1952 container, RFC 1951 DEFLATE) is defined as an
executable function, and the relationship between the two constants is
settled by evaluating it inside the kernel.
-/

/-- The PROGMEM raw string constant JS_SLIDER from src/dataSliderJS.h:
the plain-text slider script. The C++ raw string literal spans from the
newline after the opening delimiter to the newline before the closing
delimiter, so the content begins and ends with a newline character. -/
def JS_SLIDER : String :=
  "\n"
  ++ "function rkmd_rangeSlider(selector)\x7bvar self,slider_width,slider_offset,curnt,sliderDiscrete,range,slider;self=$(selector);slider_width=self.width();slider_offset=self.offset().left;sliderDiscrete=self;sliderDiscrete.each(function(i,v)\x7bcurnt=$(this);curnt.append(sliderDiscrete_tmplt());range=curnt.find(\x27input[type=\"range\"]\x27);slider=curnt.find(\".slider\");slider_fill=slider.find(\".slider-fill\");slider_handle=slider.find(\".slider-handle\");slider_label=slider.find(\".slider-label\");var range_val=parseInt(range.val());slider_fill.css(\"width\",range_val+\"%\");slider_handle.css(\"left\",range_val+\"%\");slider_label.find(\"span\").text(range_val);\x7d);self.on(\"mousedown touchstart\",\".slider-handle\",function(e)\x7bif(e.button===2)\x7breturn false;\x7d\n"
  ++ "var parents=$(this).parents(\".rkmd-slider\");var slider_width=parents.width();var slider_offset=parents.offset().left;var check_range=parents.find(\x27input[type=\"range\"]\x27).is(\":disabled\");if(check_range===true)\x7breturn false;\x7d\n"
  ++ "$(this).addClass(\"is-active\");var moveFu=function(e)\x7bvar pageX=e.pageX||e.changedTouches[0].pageX;var slider_new_width=pageX-slider_offset;if(slider_new_width<=slider_width&&!(slider_new_width<\"0\"))\x7bslider_move(parents,slider_new_width,slider_width,true);\x7d\x7d;var upFu=function(e)\x7b$(this).off(handlers);parents.find(\".is-active\").removeClass(\"is-active\");\x7d;var handlers=\x7bmousemove:moveFu,touchmove:moveFu,mouseup:upFu,touchend:upFu\x7d;$(document).on(handlers);\x7d);self.on(\"mousedown touchstart\",\".slider\",function(e)\x7bif(e.button===2)\x7breturn false;\x7d\n"
  ++ "var parents=$(this).parents(\".rkmd-slider\");var slider_width=parents.width();var slider_offset=parents.offset().left;var check_range=parents.find(\x27input[type=\"range\"]\x27).is(\":disabled\");if(check_range===true)\x7breturn false;\x7d\n"
  ++ "var slider_new_width=e.pageX-slider_offset;if(slider_new_width<=slider_width&&!(slider_new_width<\"0\"))\x7bslider_move(parents,slider_new_width,slider_width,true);\x7d\n"
  ++ "var upFu=function(e)\x7b$(this).off(handlers);\x7d;var handlers=\x7bmouseup:upFu,touchend:upFu\x7d;$(document).on(handlers);\x7d);\x7d\n"
  ++ "function sliderDiscrete_tmplt()\x7bvar tmplt=\x27<div class=\"slider\">\x27+\n"
  ++ "\x27<div class=\"slider-fill\"></div>\x27+\n"
  ++ "\x27<div class=\"slider-handle\"><div class=\"slider-label\"><span>0</span></div></div>\x27+\n"
  ++ "\"</div>\";return tmplt;\x7d\n"
  ++ "function slider_move(parents,newW,sliderW,send)\x7bvar slider_new_val=parseInt(Math.round((newW/sliderW)*100));var slider_fill=parents.find(\".slider-fill\");var slider_handle=parents.find(\".slider-handle\");var range=parents.find(\x27input[type=\"range\"]\x27);slider_fill.css(\"width\",slider_new_val+\"%\");slider_handle.css(\x7bleft:slider_new_val+\"%\",transition:\"none\",\"-webkit-transition\":\"none\",\"-moz-transition\":\"none\"\x7d);range.val(slider_new_val);if(parents.find(\".slider-handle span\").text()!=slider_new_val)\x7bparents.find(\".slider-handle span\").text(slider_new_val);var number=parents.attr(\"id\").substring(2);if(send)websock.send(\"slvalue:\"+slider_new_val+\":\"+number);\x7d\x7d\n"

/-- The PROGMEM byte array JS_SLIDER_GZIP from src/dataSliderJS.h:
the gzip-compressed form, transcribed value for value. -/
def JS_SLIDER_GZIP : List Nat :=
  [31,139,8,0,19,56,231,94,2,255,237,86,77,143,155,48,16,189,231,87,100,173,237,6,186,
   196,155,238,49,196,185,180,170,212,67,79,173,212,74,171,85,228,128,89,172,16,131,176,73,218,
   102,243,223,59,254,128,0,33,171,109,79,61,244,4,246,60,143,103,222,60,123,156,84,34,82,
   60,23,227,114,179,141,87,37,21,79,236,75,198,99,86,122,146,101,44,82,121,233,31,118,180,
   28,195,40,9,164,177,172,246,60,86,105,61,200,147,68,50,21,68,85,41,148,155,251,192,101,
   84,50,197,2,227,206,77,134,218,3,185,62,185,13,219,222,136,182,98,243,235,53,22,235,218,
   154,236,191,231,227,140,37,42,236,238,99,16,189,57,204,104,148,122,137,203,206,227,193,206,63,
   152,24,33,4,149,114,233,135,102,132,105,81,48,17,123,221,197,43,181,45,50,216,204,15,77,
   6,196,66,19,14,192,9,23,69,165,30,212,207,130,17,100,172,232,113,82,71,220,6,34,108,
   231,80,147,78,194,179,140,216,255,46,100,170,45,39,92,74,69,156,177,97,164,181,157,176,25,
   93,179,11,78,141,9,144,186,122,38,208,213,142,102,164,160,165,100,159,132,242,204,20,134,41,
   157,102,43,66,28,73,233,33,83,9,20,52,235,110,209,155,126,128,22,168,203,113,9,103,34,
   112,81,201,130,10,228,99,197,126,184,173,53,218,15,143,126,104,203,43,60,180,205,43,201,226,
   124,47,198,42,175,162,84,42,90,130,235,126,234,65,83,83,230,31,120,226,49,188,174,148,202,
   5,33,228,222,63,64,245,160,4,227,132,102,146,133,199,145,206,29,50,102,66,201,186,238,216,
   141,129,40,45,249,105,83,37,163,242,182,36,29,176,81,101,11,224,148,89,35,186,226,212,184,
   40,101,209,198,30,167,6,245,130,126,48,135,120,230,49,151,116,157,177,24,130,129,196,218,46,
   8,81,101,197,206,210,171,83,162,113,252,62,163,186,28,92,78,41,176,179,99,46,161,109,190,
   99,31,43,210,230,204,114,242,196,190,19,134,205,247,249,25,106,153,234,125,226,175,154,120,38,
   31,102,143,214,212,206,89,176,125,67,12,152,166,29,42,116,192,125,220,130,180,233,188,185,185,
   58,71,160,25,242,253,131,155,214,177,122,142,172,160,15,237,222,61,134,141,240,120,52,241,85,
   69,47,195,154,22,8,205,179,170,41,225,188,119,202,128,112,139,41,92,50,189,247,0,133,118,
   131,218,7,57,24,137,106,236,220,18,27,24,165,182,39,12,162,42,230,58,40,107,133,235,197,
   140,142,225,181,23,231,81,181,133,40,124,45,248,83,104,175,63,5,255,229,223,75,239,76,156,
   78,212,255,130,60,71,127,160,206,65,165,253,133,142,142,163,122,175,241,112,79,51,231,223,252,
   147,201,34,230,187,113,164,101,79,144,19,194,114,114,59,26,152,183,45,106,185,184,3,203,37,
   136,187,160,151,3,38,219,139,150,11,221,5,150,179,197,157,249,90,103,141,75,100,255,80,232,
   170,108,98,60,207,167,91,7,40,192,55,199,61,124,129,34,247,90,57,149,167,211,244,62,83,
   149,226,50,175,64,137,158,94,122,231,150,250,111,223,205,102,126,71,227,166,91,247,238,140,110,
   187,110,129,93,203,30,134,55,61,187,233,196,175,57,19,23,123,114,55,183,75,141,249,160,207,
   226,252,28,11,218,164,66,114,77,232,28,137,92,64,67,69,211,61,91,111,184,154,158,76,232,
   100,219,230,191,6,12,71,247,52,50,15,136,238,46,230,244,190,196,196,184,253,22,240,175,72,
   111,249,225,213,107,251,251,106,126,69,181,93,195,67,172,246,65,149,42,225,74,135,59,5,203,
   106,45,85,201,197,147,119,111,66,52,106,129,204,101,30,109,176,30,192,35,37,3,63,21,155,
   163,219,62,113,48,101,61,235,174,243,27,27,117,74,231,52,11,0,0]

/-- Declared array size in the source: `const uint8_t JS_SLIDER_GZIP[869]`. -/
def JS_SLIDER_GZIP_declaredSize : Nat := 869

/-- The byte values of the characters of `JS_SLIDER`, in order, the
terminating NUL excluded: the string content as stored in flash. -/
def JS_SLIDER_bytes : List Nat := JS_SLIDER.data.map Char.toNat

/-- The full C character array `JS_SLIDER`: the content bytes followed by
the implicit terminating NUL byte of the string literal. -/
def JS_SLIDER_carray : List Nat := JS_SLIDER_bytes ++ [0]

/-! ### Kernel-evaluation helpers

Evaluation happens by kernel reduction, which is call-by-name with
caching.  To keep pending-computation chains shallow, every loop forces
its accumulators to numerals at each step through `nforce` and `bforce`:
reducing the `cond` forces the scrutinee once, and the cached value is
then shared by the selected branch. -/

/-- Force the natural number `n` to a numeral, then continue with `k n`. -/
def nforce {α : Type} (n : Nat) (k : Nat → α) : α :=
  bif n.beq 0 then k n else k n

/-- Force the boolean `b`, then continue with `k b`. -/
def bforce {α : Type} (b : Bool) (k : Bool → α) : α :=
  bif b then k true else k false

/-- Big-endian base-256 value of a byte list: the first byte is the most
significant. -/
def bytesToNat (l : List Nat) : Nat := l.foldl (fun a b => a * 256 + b) 0

/-- Decode `k` bytes out of the big-endian base-256 value `n`. -/
def natToBytes : Nat → Nat → List Nat
  | 0, _ => []
  | k + 1, n => n / 256 ^ k % 256 :: natToBytes k (n % 256 ^ k)

/-- One chunked pass over a byte list computing its length, its
big-endian base-256 value and whether every entry satisfies `p`.
Processing two elements per recursion step keeps the kernel reduction
depth at half the list length. -/
def scanAux (p : Nat → Bool) : List Nat → Nat → Nat → Bool → Nat × Nat × Bool
  | [], n, acc, ok => (n, acc, ok)
  | [a], n, acc, ok => (n + 1, acc * 256 + a, ok && p a)
  | a :: b :: t, n, acc, ok =>
    nforce ((acc * 256 + a) * 256 + b) fun acc2 =>
    nforce (n + 2) fun n2 =>
    bforce (ok && (p a && p b)) fun ok2 =>
    scanAux p t n2 acc2 ok2

/-- Chunked pass over a character list, reading each character as its
code point.  Four characters per recursion step keep the kernel
reduction depth at a quarter of the string length. -/
def scanCharsAux (p : Nat → Bool) : List Char → Nat → Nat → Bool → Nat × Nat × Bool
  | [], n, acc, ok => (n, acc, ok)
  | [a], n, acc, ok => (n + 1, acc * 256 + a.toNat, ok && p a.toNat)
  | [a, b], n, acc, ok =>
    (n + 2, (acc * 256 + a.toNat) * 256 + b.toNat, ok && (p a.toNat && p b.toNat))
  | [a, b, c], n, acc, ok =>
    (n + 3, ((acc * 256 + a.toNat) * 256 + b.toNat) * 256 + c.toNat,
     ok && (p a.toNat && (p b.toNat && p c.toNat)))
  | a :: b :: c :: d :: t, n, acc, ok =>
    nforce ((((acc * 256 + a.toNat) * 256 + b.toNat) * 256 + c.toNat) * 256 + d.toNat) fun acc2 =>
    nforce (n + 4) fun n2 =>
    bforce (ok && (p a.toNat && (p b.toNat && (p c.toNat && p d.toNat)))) fun ok2 =>
    scanCharsAux p t n2 acc2 ok2

/-- Length, base-256 value and `p`-check of the byte sequence of a string. -/
def scanString (p : Nat → Bool) (s : String) : Nat × Nat × Bool :=
  scanCharsAux p s.data 0 0 true

/-- Chunked list length. -/
def listLenAux : List Nat → Nat → Nat
  | [], n => n
  | [_], n => n + 1
  | _ :: _ :: t, n => nforce (n + 2) fun n2 => listLenAux t n2

/-! ### A standard gzip decompressor (RFC 1952 / RFC 1951)

The decompressor below implements the standard algorithm: the gzip
member header and trailer of RFC 1952 around an RFC 1951 DEFLATE
stream (stored, fixed-Huffman and dynamic-Huffman blocks), following
the reference decoder `puff.c` of the zlib distribution.

The bit stream is a natural number read least-significant bit first,
together with the count of remaining bits.  The produced output is kept
as its big-endian base-256 value together with its length, and the
CRC-32 register is updated byte by byte as output is produced. -/

/-- DEFLATE bit stream: `buf` holds the remaining bits, the next bit in
the stream being the least significant; `len` counts the remaining bits. -/
structure BitSt where
  buf : Nat
  len : Nat

/-- Read one bit (RFC 1951 §3.1.1: data elements are packed starting
with the least significant bit of each byte). -/
def readBit (s : BitSt) : Except String (Nat × BitSt) :=
  bif s.len.beq 0 then .error "unexpected end of input"
  else .ok (s.buf % 2, ⟨s.buf / 2, s.len - 1⟩)

/-- Read `n` bits as a number, least-significant bit first. -/
def readBits : Nat → BitSt → Except String (Nat × BitSt)
  | 0, s => .ok (0, s)
  | n + 1, s =>
    match readBit s with
    | .error e => .error e
    | .ok (b, s1) =>
      match readBits n s1 with
      | .error e => .error e
      | .ok (v, s2) => .ok (b + 2 * v, s2)

/-- Decompressor output: length in bytes, big-endian base-256 value of
the bytes produced so far, and the running CRC-32 register. -/
structure OutSt where
  olen : Nat
  oacc : Nat
  crc : Nat

/-- The reflected CRC-32 polynomial of RFC 1952. -/
def crcPoly : Nat := 0xEDB88320

/-- One bit of the CRC-32 computation. -/
def crcStep (c : Nat) : Nat :=
  bif (c % 2).beq 1 then Nat.xor (c / 2) crcPoly else c / 2

/-- Iterate the CRC bit step. -/
def crcRounds : Nat → Nat → Nat
  | 0, c => c
  | k + 1, c => crcRounds k (crcStep c)

/-- Update the CRC-32 register with one byte. -/
def crcByte (c b : Nat) : Nat := crcRounds 8 (Nat.xor c b)

/-- Append one byte to the output. -/
def pushByte (o : OutSt) (b : Nat) : OutSt :=
  nforce (o.olen + 1) fun l =>
  nforce (o.oacc * 256 + b) fun a =>
  nforce (crcByte o.crc b) fun c => ⟨l, a, c⟩

/-- The byte `dist` positions back from the end of the output (`dist ≥ 1`). -/
def backByte (o : OutSt) (dist : Nat) : Nat := o.oacc / 256 ^ (dist - 1) % 256

/-- LZ77 copy: append `k` bytes, each taken `dist` positions back
(overlapping copies repeat recently written bytes, as required). -/
def copyLoop : Nat → OutSt → Nat → OutSt
  | 0, o, _ => o
  | k + 1, o, dist => copyLoop k (pushByte o (backByte o dist)) dist

/-- A canonical Huffman decoding table, following `puff.c`: `cnt` packs,
in base 512, the number of codes of each length 0..15; `sym` packs, in
base 512, the symbols sorted by code length and, within a length, by
symbol value. -/
structure Huff where
  cnt : Nat
  sym : Nat

/-- Number of codes of length `len`. -/
def cntAt (h : Huff) (len : Nat) : Nat := h.cnt / 512 ^ len % 512

/-- The `i`-th symbol in canonical order. -/
def symAt (h : Huff) (i : Nat) : Nat := h.sym / 512 ^ i % 512

/-- Count the codes of each length, packed in base 512. -/
def packCounts : List Nat → Nat → Nat
  | [], acc => acc
  | l :: t, acc =>
    nforce (bif l.beq 0 then acc else acc + 512 ^ l) fun acc2 => packCounts t acc2

/-- Check that the code-length counts do not over-subscribe the code
space (`puff.c`: `left` is the number of still-available codes, starting
from one code of length zero and doubling at each length). -/
def checkCounts (cnt : Nat) : Nat → Nat → Nat → Bool
  | 0, _, _ => true
  | k + 1, left, len =>
    nforce (cnt / 512 ^ len % 512) fun c =>
    bif (2 * left).blt c then false
    else checkCounts cnt k (2 * left - c) (len + 1)

/-- The symbols whose code length equals `len`, in increasing order,
starting from symbol index `i`. -/
def symsOfLen : List Nat → Nat → Nat → List Nat
  | [], _, _ => []
  | l :: t, len, i =>
    bif l.beq len then i :: symsOfLen t len (i + 1)
    else symsOfLen t len (i + 1)

/-- Pack a symbol list onto an accumulator in base 512, first element
ending up most significant. -/
def packList : List Nat → Nat → Nat
  | [], acc => acc
  | s :: t, acc => nforce (acc * 512 + s) fun a => packList t a

/-- Pack the canonically sorted symbols: lengths are processed from 15
down to 1, symbols within a length in decreasing order, so that the
first symbol of the sorted order lands in the least significant digit. -/
def packSymsAux (lengths : List Nat) : Nat → Nat → Nat
  | 0, acc => acc
  | k + 1, acc => packSymsAux lengths k (packList (symsOfLen lengths (k + 1) 0).reverse acc)

/-- Build the canonical Huffman table for the given code lengths
(indexed by symbol), rejecting over-subscribed codes. -/
def buildHuff (lengths : List Nat) : Except String Huff :=
  nforce (packCounts lengths 0) fun cnt =>
  bif checkCounts cnt 15 1 1 then .ok ⟨cnt, packSymsAux lengths 15 0⟩
  else .error "over-subscribed Huffman code"

/-- Decode one Huffman symbol (`puff.c` `decode`): codes are read most
significant bit first; at each length, `first` is the first code of that
length, `index` the index of its first symbol. -/
def decodeAux (h : Huff) : Nat → BitSt → Nat → Nat → Nat → Nat → Except String (Nat × BitSt)
  | 0, _, _, _, _, _ => .error "invalid Huffman code"
  | k + 1, s, len, code, first, index =>
    match readBit s with
    | .error e => .error e
    | .ok (b, s1) =>
      nforce (code + b) fun code1 =>
      nforce (cntAt h len) fun c =>
      bif code1.blt (first + c) then .ok (symAt h (index + (code1 - first)), s1)
      else
        nforce (2 * (first + c)) fun first2 =>
        nforce (index + c) fun index2 =>
        decodeAux h k s1 (len + 1) (2 * code1) first2 index2

/-- Decode one symbol, trying code lengths 1..15. -/
def decodeSym (h : Huff) (s : BitSt) : Except String (Nat × BitSt) :=
  decodeAux h 15 s 1 0 0 0

/-- The length codes 257..285 (RFC 1951 §3.2.5), each given as its base
length paired with its number of extra bits. -/
def lenTable : List (Nat × Nat) :=
  [(3, 0), (4, 0), (5, 0), (6, 0), (7, 0), (8, 0), (9, 0), (10, 0),
   (11, 1), (13, 1), (15, 1), (17, 1), (19, 2), (23, 2), (27, 2), (31, 2),
   (35, 3), (43, 3), (51, 3), (59, 3), (67, 4), (83, 4), (99, 4), (115, 4),
   (131, 5), (163, 5), (195, 5), (227, 5), (258, 0)]

/-- Base lengths of the length codes. -/
def lenBase : List Nat := lenTable.map Prod.fst

/-- Extra bits of the length codes. -/
def lenExtra : List Nat := lenTable.map Prod.snd

/-- The distance codes 0..29 (RFC 1951 §3.2.5), each given as its base
distance paired with its number of extra bits. -/
def distTable : List (Nat × Nat) :=
  [(1, 0), (2, 0), (3, 0), (4, 0), (5, 1), (7, 1), (9, 2), (13, 2),
   (17, 3), (25, 3), (33, 4), (49, 4), (65, 5), (97, 5), (129, 6), (193, 6),
   (257, 7), (385, 7), (513, 8), (769, 8), (1025, 9), (1537, 9),
   (2049, 10), (3073, 10), (4097, 11), (6145, 11), (8193, 12), (12289, 12),
   (16385, 13), (24577, 13)]

/-- Base distances of the distance codes. -/
def distBase : List Nat := distTable.map Prod.fst

/-- Extra bits of the distance codes. -/
def distExtra : List Nat := distTable.map Prod.snd

/-- Decode the symbols of one compressed block until the end-of-block
symbol 256, appending literals and LZ77 copies to the output. -/
def inflateSyms (hl hd : Huff) : Nat → BitSt → OutSt → Except String (BitSt × OutSt)
  | 0, _, _ => .error "fuel exhausted"
  | fuel + 1, s, o =>
    match decodeSym hl s with
    | .error e => .error e
    | .ok (sym, s1) =>
      bif sym.blt 256 then inflateSyms hl hd fuel s1 (pushByte o sym)
      else bif sym.beq 256 then .ok (s1, o)
      else bif (285 : Nat).blt sym then .error "invalid length symbol"
      else
        match readBits (lenExtra.getD (sym - 257) 0) s1 with
        | .error e => .error e
        | .ok (ebits, s2) =>
          nforce (lenBase.getD (sym - 257) 0 + ebits) fun len =>
          match decodeSym hd s2 with
          | .error e => .error e
          | .ok (dsym, s3) =>
            bif (29 : Nat).blt dsym then .error "invalid distance symbol"
            else
              match readBits (distExtra.getD dsym 0) s3 with
              | .error e => .error e
              | .ok (dbits, s4) =>
                nforce (distBase.getD dsym 0 + dbits) fun dist =>
                bif o.olen.blt dist then .error "distance too far back"
                else inflateSyms hl hd fuel s4 (copyLoop len o dist)

/-- Permutation in which the code-length code lengths are stored
(RFC 1951 §3.2.7). -/
def clOrder : List Nat := [16, 17, 18, 0, 8, 7, 9, 6, 10, 5, 11, 4, 12, 3, 13, 2, 14, 1, 15]

/-- Read the 3-bit code lengths of the code-length alphabet into a
19-entry table; unread entries stay zero. -/
def readClLens : List Nat → Nat → List Nat → BitSt → Except String (List Nat × BitSt)
  | [], _, acc, s => .ok (acc, s)
  | pos :: rest, n, acc, s =>
    bif n.beq 0 then .ok (acc, s)
    else
      match readBits 3 s with
      | .error e => .error e
      | .ok (v, s1) => readClLens rest (n - 1) (acc.set pos v) s1

/-- Decode the literal/length and distance code lengths using the
code-length code, expanding the repeat symbols 16, 17 and 18
(RFC 1951 §3.2.7).  The accumulator is kept reversed. -/
def readLens (h : Huff) : Nat → Nat → List Nat → BitSt → Except String (List Nat × BitSt)
  | 0, _, _, _ => .error "fuel exhausted"
  | fuel + 1, need, acc, s =>
    bif need.beq 0 then .ok (acc.reverse, s)
    else
      match decodeSym h s with
      | .error e => .error e
      | .ok (sym, s1) =>
        bif sym.blt 16 then readLens h fuel (need - 1) (sym :: acc) s1
        else bif sym.beq 16 then
          match acc with
          | [] => .error "repeat with no previous length"
          | prev :: _ =>
            match readBits 2 s1 with
            | .error e => .error e
            | .ok (r, s2) =>
              bif need.blt (r + 3) then .error "too many code lengths"
              else readLens h fuel (need - (r + 3)) (List.replicate (r + 3) prev ++ acc) s2
        else bif sym.beq 17 then
          match readBits 3 s1 with
          | .error e => .error e
          | .ok (r, s2) =>
            bif need.blt (r + 3) then .error "too many code lengths"
            else readLens h fuel (need - (r + 3)) (List.replicate (r + 3) 0 ++ acc) s2
        else
          match readBits 7 s1 with
          | .error e => .error e
          | .ok (r, s2) =>
            bif need.blt (r + 11) then .error "too many code lengths"
            else readLens h fuel (need - (r + 11)) (List.replicate (r + 11) 0 ++ acc) s2

/-- Inflate one dynamic-Huffman block (BTYPE = 2). -/
def inflateDynamic (s : BitSt) (o : OutSt) : Except String (BitSt × OutSt) :=
  match readBits 5 s with
  | .error e => .error e
  | .ok (hlit5, s1) =>
    match readBits 5 s1 with
    | .error e => .error e
    | .ok (hdist5, s2) =>
      match readBits 4 s2 with
      | .error e => .error e
      | .ok (hclen4, s3) =>
        nforce (hlit5 + 257) fun hlit =>
        nforce (hdist5 + 1) fun hdist =>
        bif (286 : Nat).blt hlit then .error "too many literal/length codes"
        else bif (30 : Nat).blt hdist then .error "too many distance codes"
        else
          match readClLens clOrder (hclen4 + 4) (List.replicate 19 0) s3 with
          | .error e => .error e
          | .ok (cl, s4) =>
            match buildHuff cl with
            | .error e => .error e
            | .ok hcl =>
              match readLens hcl (s4.len + 1) (hlit + hdist) [] s4 with
              | .error e => .error e
              | .ok (lens, s5) =>
                match buildHuff (lens.take hlit) with
                | .error e => .error e
                | .ok hl =>
                  match buildHuff (lens.drop hlit) with
                  | .error e => .error e
                  | .ok hd => inflateSyms hl hd (s5.len + 1) s5 o

/-- Code lengths of the fixed literal/length code (RFC 1951 §3.2.6). -/
def fixedLitLens : List Nat :=
  List.replicate 144 8 ++ List.replicate 112 9 ++ List.replicate 24 7 ++ List.replicate 8 8

/-- Code lengths of the fixed distance code. -/
def fixedDistLens : List Nat := List.replicate 30 5

/-- Inflate one fixed-Huffman block (BTYPE = 1). -/
def inflateFixed (s : BitSt) (o : OutSt) : Except String (BitSt × OutSt) :=
  match buildHuff fixedLitLens with
  | .error e => .error e
  | .ok hl =>
    match buildHuff fixedDistLens with
    | .error e => .error e
    | .ok hd => inflateSyms hl hd (s.len + 1) s o

/-- Discard the bits up to the next byte boundary. -/
def alignByte (s : BitSt) : BitSt := ⟨s.buf / 2 ^ (s.len % 8), s.len - s.len % 8⟩

/-- Copy `k` bytes of a stored block to the output. -/
def copyStored : Nat → BitSt → OutSt → Except String (BitSt × OutSt)
  | 0, s, o => .ok (s, o)
  | k + 1, s, o =>
    match readBits 8 s with
    | .error e => .error e
    | .ok (b, s1) => copyStored k s1 (pushByte o b)

/-- Inflate one stored block (BTYPE = 0): skip to the byte boundary,
read LEN and its complement NLEN, then copy LEN raw bytes. -/
def inflateStored (s : BitSt) (o : OutSt) : Except String (BitSt × OutSt) :=
  match readBits 16 (alignByte s) with
  | .error e => .error e
  | .ok (len, s1) =>
    match readBits 16 s1 with
    | .error e => .error e
    | .ok (nlen, s2) =>
      bif (len + nlen).beq 65535 then copyStored len s2 o
      else .error "stored block length check failed"

/-- Inflate the sequence of DEFLATE blocks: read BFINAL and BTYPE,
inflate the block, and stop after the final block. -/
def inflateBlocks : Nat → BitSt → OutSt → Except String (BitSt × OutSt)
  | 0, _, _ => .error "fuel exhausted"
  | fuel + 1, s, o =>
    match readBit s with
    | .error e => .error e
    | .ok (bfinal, s1) =>
      match readBits 2 s1 with
      | .error e => .error e
      | .ok (btype, s2) =>
        match
          (bif btype.beq 0 then inflateStored s2 o
           else bif btype.beq 1 then inflateFixed s2 o
           else bif btype.beq 2 then inflateDynamic s2 o
           else .error "invalid block type") with
        | .error e => .error e
        | .ok (s3, o3) =>
          bif bfinal.beq 1 then .ok (s3, o3)
          else inflateBlocks fuel s3 o3

/-- Skip `k` bytes. -/
def skipBytes : Nat → List Nat → Except String (List Nat)
  | 0, l => .ok l
  | _ + 1, [] => .error "unexpected end of input"
  | k + 1, _ :: t => skipBytes k t

/-- Skip a NUL-terminated field (gzip FNAME / FCOMMENT). -/
def skipZeroTerminated : Nat → List Nat → Except String (List Nat)
  | 0, _ => .error "unterminated field"
  | _ + 1, [] => .error "unexpected end of input"
  | k + 1, b :: t => bif b.beq 0 then .ok t else skipZeroTerminated k t

/-- Skip the optional FEXTRA field when flag bit 2 is set (RFC 1952). -/
def stripExtraField (flg : Nat) (l : List Nat) : Except String (List Nat) :=
  bif (flg / 4 % 2).beq 1 then
    match l with
    | x1 :: x2 :: t => skipBytes (x1 + 256 * x2) t
    | _ => .error "truncated extra field"
  else .ok l

/-- Skip the optional FNAME field when flag bit 3 is set. -/
def stripNameField (flg : Nat) (l : List Nat) : Except String (List Nat) :=
  bif (flg / 8 % 2).beq 1 then skipZeroTerminated (listLenAux l 0 + 1) l else .ok l

/-- Skip the optional FCOMMENT field when flag bit 4 is set. -/
def stripCommentField (flg : Nat) (l : List Nat) : Except String (List Nat) :=
  bif (flg / 16 % 2).beq 1 then skipZeroTerminated (listLenAux l 0 + 1) l else .ok l

/-- Skip the optional FHCRC header checksum when flag bit 1 is set. -/
def stripHcrcField (flg : Nat) (l : List Nat) : Except String (List Nat) :=
  bif (flg / 2 % 2).beq 1 then skipBytes 2 l else .ok l

/-- Little-endian 32-bit value of the first four bytes of a list. -/
def le32At (l : List Nat) : Nat :=
  l.getD 0 0 + 256 * (l.getD 1 0 + 256 * (l.getD 2 0 + 256 * l.getD 3 0))

/-- Split a list into everything but its last 8 elements, and those 8. -/
def splitTrailer (l : List Nat) : Except String (List Nat × List Nat) :=
  nforce (listLenAux l 0) fun n =>
  bif n.blt 8 then .error "missing gzip trailer"
  else .ok (l.take (n - 8), l.drop (n - 8))

/-- Turn a byte list into a DEFLATE bit stream: the first byte supplies
the first (least significant) eight bits. -/
def bitsOfBytes (l : List Nat) : BitSt :=
  ⟨(scanAux (fun _ => true) l.reverse 0 0 true).2.1, 8 * listLenAux l 0⟩

/-- Decompress one gzip member (RFC 1952): check the magic bytes and
compression method, skip the optional header fields, inflate the
DEFLATE stream, and check the CRC-32 and ISIZE trailer.  Returns the
length of the decompressed output and its big-endian base-256 value. -/
def gunzipCore (bytes : List Nat) : Except String (Nat × Nat) :=
  match bytes with
  | id1 :: id2 :: cm :: flg :: _m0 :: _m1 :: _m2 :: _m3 :: _xfl :: _os :: rest =>
    bif !(id1.beq 31 && id2.beq 139) then .error "bad gzip magic"
    else bif !(cm.beq 8) then .error "unknown compression method"
    else bif (31 : Nat).blt flg then .error "reserved flag bits set"
    else
      match stripExtraField flg rest with
      | .error e => .error e
      | .ok r1 =>
        match stripNameField flg r1 with
        | .error e => .error e
        | .ok r2 =>
          match stripCommentField flg r2 with
          | .error e => .error e
          | .ok r3 =>
            match stripHcrcField flg r3 with
            | .error e => .error e
            | .ok body =>
              match splitTrailer body with
              | .error e => .error e
              | .ok (comp, trailer) =>
                match inflateBlocks (8 * listLenAux comp 0 + 1) (bitsOfBytes comp)
                    ⟨0, 0, 0xFFFFFFFF⟩ with
                | .error e => .error e
                | .ok (s1, o) =>
                  bif !(s1.len.blt 8) then .error "trailing garbage"
                  else
                    nforce (Nat.xor o.crc 0xFFFFFFFF) fun crcv =>
                    bif !(crcv.beq (le32At trailer)) then .error "CRC-32 mismatch"
                    else bif !((o.olen % 4294967296).beq (le32At (trailer.drop 4))) then
                      .error "ISIZE mismatch"
                    else .ok (o.olen, o.oacc)
  | _ => .error "input too short"

/-- Decompress one gzip member to its byte sequence. -/
def gunzip (bytes : List Nat) : Except String (List Nat) :=
  match gunzipCore bytes with
  | .error e => .error e
  | .ok (len, acc) => .ok (natToBytes len acc)

/-! ### Derived constants and models used by the claims -/

/-- C-style string length: the number of bytes before the first NUL,
as `strlen` would compute when the string is served from flash. -/
def cStrLen : List Nat → Nat
  | [] => 0
  | b :: t => bif b.beq 0 then 0 else cStrLen t + 1

/-- The byte predicate checked over the string content: fits in a byte
and is not NUL. -/
def strPred (b : Nat) : Bool := b.blt 256 && !(b.beq 0)

/-- The length reported by decompressing `JS_SLIDER_GZIP` (0 on failure). -/
def coreLen : Nat :=
  match gunzipCore JS_SLIDER_GZIP with
  | .ok (l, _) => l
  | .error _ => 0

/-- The big-endian base-256 value of the bytes obtained by decompressing
`JS_SLIDER_GZIP` (0 on failure). -/
def coreM : Nat :=
  match gunzipCore JS_SLIDER_GZIP with
  | .ok (_, a) => a
  | .error _ => 0

/-- The byte sequence obtained by decompressing `JS_SLIDER_GZIP`. -/
def JS_SLIDER_inflated : List Nat := natToBytes coreLen coreM

/-- All facts that are settled by evaluating the decompressor and the
byte scans once: the decompression succeeds with 2868 bytes of output,
the string content has 2870 bytes, none of them NUL, and their
base-256 values differ exactly by a leading and a trailing newline
byte (code 10). -/
def allChecks : Bool :=
  match gunzipCore JS_SLIDER_GZIP with
  | .error _ => false
  | .ok (l, a) =>
    decide (l = 2868) && decide (a < 256 ^ 2868) &&
    decide ((scanString strPred JS_SLIDER).1 = 2870) &&
    decide ((scanString strPred JS_SLIDER).2.1 = 10 * 256 ^ 2869 + a * 256 + 10) &&
    (scanString strPred JS_SLIDER).2.2

/-- The state visible to the firmware: the contents of the two flash
buffers defined by the translation unit. -/
structure FirmwareState where
  slider : List Nat
  sliderGzip : List Nat

/-- The transitions defined by the translation unit.  The header
declares data only — no function, no mutation — so there is no
constructor: no operation of this repository changes the state. -/
inductive FirmwareStep : FirmwareState → FirmwareState → Prop

/-- States reachable from the initial contents of the two constants
through the (empty) set of operations. -/
inductive FirmwareReachable : FirmwareState → Prop
  | init : FirmwareReachable ⟨JS_SLIDER_carray, JS_SLIDER_GZIP⟩
  | step {s t : FirmwareState} :
      FirmwareReachable s → FirmwareStep s t → FirmwareReachable t

/-- Top-level declarations a C++ translation unit of this repository
could contain. -/
inductive CppDecl
  | progmemConstChar (name : String) (bytes : List Nat)
  | progmemConstU8 (name : String) (declaredSize : Nat) (init : List Nat)
  | cppFunction (name : String)
  | mutableVar (name : String)

/-- The translation unit `dataSliderJS.h`, declaration by declaration:
the PROGMEM string (its content bytes plus terminating NUL) and the
PROGMEM byte array with its declared size and initializer list. -/
def dataSliderJS_decls : List CppDecl :=
  [CppDecl.progmemConstChar "JS_SLIDER" JS_SLIDER_carray,
   CppDecl.progmemConstU8 "JS_SLIDER_GZIP" JS_SLIDER_GZIP_declaredSize JS_SLIDER_GZIP]

/-- Whether a declaration is a flash-resident constant. -/
def CppDecl.isFlashConstant : CppDecl → Bool
  | CppDecl.progmemConstChar _ _ => true
  | CppDecl.progmemConstU8 _ _ _ => true
  | CppDecl.cppFunction _ => false
  | CppDecl.mutableVar _ => false

/-- Whether a declaration is a C++ function. -/
def CppDecl.isFunction : CppDecl → Bool
  | CppDecl.cppFunction _ => true
  | _ => false

/-- Whether a declaration is a mutable variable. -/
def CppDecl.isMutableVar : CppDecl → Bool
  | CppDecl.mutableVar _ => true
  | _ => false

/-- The name of a declaration. -/
def CppDecl.declName : CppDecl → String
  | CppDecl.progmemConstChar n _ => n
  | CppDecl.progmemConstU8 n _ _ => n
  | CppDecl.cppFunction n => n
  | CppDecl.mutableVar n => n
theorem nforce_eq {α : Type} (n : Nat) (k : Nat → α) : nforce n k = k n := by
  unfold nforce; cases h : n.beq 0 <;> simp

theorem bforce_eq {α : Type} (b : Bool) (k : Bool → α) : bforce b k = k b := by
  unfold bforce; cases b <;> simp


/-- Two-step list induction, matching the chunked recursion of `scanAux`. -/
theorem listPairInduction {α : Type} (P : List α → Prop)
    (h0 : P []) (h1 : ∀ a, P [a]) (h2 : ∀ a b t, P t → P (a :: b :: t)) :
    ∀ l, P l := by
  have H : ∀ (n : Nat) (l : List α), l.length ≤ n → P l := by
    intro n
    induction n with
    | zero =>
      intro l hl
      cases l with
      | nil => exact h0
      | cons a t => simp at hl
    | succ n ih =>
      intro l hl
      match l with
      | [] => exact h0
      | [a] => exact h1 a
      | a :: b :: t =>
        refine h2 a b t (ih t ?hlen)
        simp [List.length_cons] at hl
        omega
  intro l
  exact H l.length l le_rfl

/-- Four-step list induction, matching the chunked recursion of
`scanCharsAux`. -/
theorem listQuadInduction {α : Type} (P : List α → Prop)
    (h0 : P []) (h1 : ∀ a, P [a]) (h2 : ∀ a b, P [a, b]) (h3 : ∀ a b c, P [a, b, c])
    (h4 : ∀ a b c d t, P t → P (a :: b :: c :: d :: t)) :
    ∀ l, P l := by
  have H : ∀ (n : Nat) (l : List α), l.length ≤ n → P l := by
    intro n
    induction n with
    | zero =>
      intro l hl
      cases l with
      | nil => exact h0
      | cons a t => simp at hl
    | succ n ih =>
      intro l hl
      match l with
      | [] => exact h0
      | [a] => exact h1 a
      | [a, b] => exact h2 a b
      | [a, b, c] => exact h3 a b c
      | a :: b :: c :: d :: t =>
        refine h4 a b c d t (ih t ?hlen)
        simp [List.length_cons] at hl
        omega
  intro l
  exact H l.length l le_rfl

theorem scanAux_spec (p : Nat → Bool) :
    ∀ (l : List Nat) (n acc : Nat) (ok : Bool),
      scanAux p l n acc ok =
        (n + l.length, l.foldl (fun a b => a * 256 + b) acc, ok && l.all p) := by
  refine listPairInduction _ ?h0 ?h1 ?h2
  case h0 => intro n acc ok; simp [scanAux]
  case h1 => intro a n acc ok; simp [scanAux]
  case h2 =>
    intro a b t ih n acc ok
    simp only [scanAux, nforce_eq, bforce_eq, ih, List.foldl, List.length_cons, List.all_cons]
    rw [Prod.mk.injEq, Prod.mk.injEq]
    refine ⟨by omega, rfl, by simp [Bool.and_assoc]⟩

theorem scanCharsAux_spec (p : Nat → Bool) :
    ∀ (l : List Char) (n acc : Nat) (ok : Bool),
      scanCharsAux p l n acc ok =
        (n + l.length,
         (l.map Char.toNat).foldl (fun a b => a * 256 + b) acc,
         ok && (l.map Char.toNat).all p) := by
  refine listQuadInduction _ ?h0 ?h1 ?h2 ?h3 ?h4
  case h0 => intro n acc ok; simp [scanCharsAux]
  case h1 => intro a n acc ok; simp [scanCharsAux]
  case h2 => intro a b n acc ok; simp [scanCharsAux, Bool.and_assoc]
  case h3 => intro a b c n acc ok; simp [scanCharsAux, Bool.and_assoc]
  case h4 =>
    intro a b c d t ih n acc ok
    simp only [scanCharsAux, nforce_eq, bforce_eq, ih, List.map_cons, List.foldl,
      List.length_cons, List.all_cons]
    rw [Prod.mk.injEq, Prod.mk.injEq]
    refine ⟨by omega, rfl, by simp [Bool.and_assoc]⟩

theorem listLenAux_spec : ∀ (l : List Nat) (n : Nat), listLenAux l n = n + l.length := by
  refine listPairInduction _ ?h0 ?h1 ?h2
  case h0 => intro n; simp [listLenAux]
  case h1 => intro a n; simp [listLenAux]
  case h2 =>
    intro a b t ih n
    simp only [listLenAux, nforce_eq, ih, List.length_cons]
    omega

theorem scanString_spec (p : Nat → Bool) (s : String) :
    scanString p s =
      ((s.data.map Char.toNat).length,
       bytesToNat (s.data.map Char.toNat),
       (s.data.map Char.toNat).all p) := by
  simp [scanString, scanCharsAux_spec, bytesToNat]


/-! ### Base-256 encoding lemmas -/

theorem foldl_b256_acc :
    ∀ (l : List Nat) (acc : Nat),
      l.foldl (fun a b => a * 256 + b) acc = acc * 256 ^ l.length + bytesToNat l := by
  intro l
  induction l with
  | nil => intro acc; simp [bytesToNat]
  | cons a t ih =>
    intro acc
    have hbt : bytesToNat (a :: t) = a * 256 ^ t.length + bytesToNat t := by
      unfold bytesToNat
      simp only [List.foldl_cons]
      rw [ih]
      simp only [Nat.zero_mul, Nat.zero_add]
      rfl
    simp only [List.foldl_cons, List.length_cons]
    rw [ih, hbt]
    ring

theorem bytesToNat_cons (a : Nat) (l : List Nat) :
    bytesToNat (a :: l) = a * 256 ^ l.length + bytesToNat l := by
  unfold bytesToNat
  simp only [List.foldl_cons]
  rw [foldl_b256_acc]
  simp only [Nat.zero_mul, Nat.zero_add]
  rfl

theorem bytesToNat_append (l1 l2 : List Nat) :
    bytesToNat (l1 ++ l2) = bytesToNat l1 * 256 ^ l2.length + bytesToNat l2 := by
  unfold bytesToNat
  rw [List.foldl_append, foldl_b256_acc]
  rfl

theorem bytesToNat_lt :
    ∀ l : List Nat, (∀ b ∈ l, b < 256) → bytesToNat l < 256 ^ l.length := by
  intro l
  induction l with
  | nil => intro _; simp [bytesToNat]
  | cons a t ih =>
    intro h
    have ha : a < 256 := h a (by simp)
    have ht : bytesToNat t < 256 ^ t.length := ih fun b hb => h b (by simp [hb])
    rw [bytesToNat_cons, List.length_cons, pow_succ]
    calc a * 256 ^ t.length + bytesToNat t
        < a * 256 ^ t.length + 256 ^ t.length := by omega
      _ = (a + 1) * 256 ^ t.length := by ring
      _ ≤ 256 * 256 ^ t.length := Nat.mul_le_mul_right _ (by omega)
      _ = 256 ^ t.length * 256 := by ring

theorem length_natToBytes : ∀ (k n : Nat), (natToBytes k n).length = k := by
  intro k
  induction k with
  | zero => intro n; simp [natToBytes]
  | succ k ih => intro n; simp [natToBytes, ih]

theorem mem_natToBytes_lt : ∀ (k n b : Nat), b ∈ natToBytes k n → b < 256 := by
  intro k
  induction k with
  | zero => intro n b hb; simp [natToBytes] at hb
  | succ k ih =>
    intro n b hb
    simp only [natToBytes, List.mem_cons] at hb
    rcases hb with h | h
    · rw [h]; exact Nat.mod_lt _ (by omega)
    · exact ih _ b h

theorem bytesToNat_natToBytes :
    ∀ (k n : Nat), n < 256 ^ k → bytesToNat (natToBytes k n) = n := by
  intro k
  induction k with
  | zero =>
    intro n h
    simp only [pow_zero, Nat.lt_one_iff] at h
    simp [natToBytes, bytesToNat, h]
  | succ k ih =>
    intro n h
    have hpos : 0 < 256 ^ k := by positivity
    have hm : n % 256 ^ k < 256 ^ k := Nat.mod_lt _ hpos
    rw [natToBytes, bytesToNat_cons, length_natToBytes, ih _ hm]
    have hd : n / 256 ^ k < 256 := by
      apply Nat.div_lt_of_lt_mul
      rw [pow_succ] at h
      exact h
    rw [Nat.mod_eq_of_lt hd, Nat.mul_comm]
    exact Nat.div_add_mod n (256 ^ k)

theorem natToBytes_bytesToNat :
    ∀ l : List Nat, (∀ b ∈ l, b < 256) → natToBytes l.length (bytesToNat l) = l := by
  intro l
  induction l with
  | nil => intro _; simp [natToBytes, bytesToNat]
  | cons a t ih =>
    intro h
    have ha : a < 256 := h a (by simp)
    have hmem : ∀ b ∈ t, b < 256 := fun b hb => h b (by simp [hb])
    have ht : bytesToNat t < 256 ^ t.length := bytesToNat_lt t hmem
    have hpos : 0 < 256 ^ t.length := by positivity
    have hv : bytesToNat (a :: t) = a * 256 ^ t.length + bytesToNat t := bytesToNat_cons a t
    have hdiv : bytesToNat (a :: t) / 256 ^ t.length = a := by
      rw [hv, Nat.add_comm, Nat.mul_comm, Nat.add_mul_div_left _ _ hpos,
        Nat.div_eq_of_lt ht]
      omega
    have hmod : bytesToNat (a :: t) % 256 ^ t.length = bytesToNat t := by
      rw [hv, Nat.add_comm, Nat.mul_comm, Nat.add_mul_mod_self_left,
        Nat.mod_eq_of_lt ht]
    simp only [List.length_cons, natToBytes]
    rw [hdiv, hmod, Nat.mod_eq_of_lt ha, ih hmem]

/-! ### Facts settled by kernel evaluation -/

theorem allChecks_eval : allChecks = true := by decide

theorem gz_listLen_eval : listLenAux JS_SLIDER_GZIP 0 = 869 := by decide

theorem gz_scanLt_eval :
    (scanAux (fun b => b.blt 256) JS_SLIDER_GZIP 0 0 true).2.2 = true := by decide

theorem gz_drop_eval : JS_SLIDER_GZIP.drop 865 = [52, 11, 0, 0] := by decide

theorem gz_magic_eval :
    JS_SLIDER_GZIP.getD 0 0 = 31 ∧ JS_SLIDER_GZIP.getD 1 0 = 139 ∧
      JS_SLIDER_GZIP.getD 2 0 = 8 := by
  refine ⟨by decide, by decide, by decide⟩

theorem gz_length : JS_SLIDER_GZIP.length = 869 := by
  have h := gz_listLen_eval
  rw [listLenAux_spec] at h
  omega

theorem gz_all_lt : JS_SLIDER_GZIP.all (fun b => b.blt 256) = true := by
  have h := gz_scanLt_eval
  rw [scanAux_spec] at h
  simpa using h

/-- The facts established by the single decompressor run: decompression
succeeds, its output has 2868 bytes whose base-256 value is `coreM`,
and the 2870 content bytes of `JS_SLIDER` are NUL-free bytes whose
base-256 value sandwiches `coreM` between two newline bytes. -/
theorem gunzip_facts :
    gunzip JS_SLIDER_GZIP = Except.ok JS_SLIDER_inflated ∧
    coreLen = 2868 ∧
    coreM < 256 ^ 2868 ∧
    JS_SLIDER_bytes.length = 2870 ∧
    bytesToNat JS_SLIDER_bytes = 10 * 256 ^ 2869 + coreM * 256 + 10 ∧
    JS_SLIDER_bytes.all strPred = true := by
  have hs1 : (scanString strPred JS_SLIDER).1 = (JS_SLIDER.data.map Char.toNat).length := by
    rw [scanString_spec]
  have hs2 : (scanString strPred JS_SLIDER).2.1 = bytesToNat (JS_SLIDER.data.map Char.toNat) := by
    rw [scanString_spec]
  have hs3 : (scanString strPred JS_SLIDER).2.2 = (JS_SLIDER.data.map Char.toNat).all strPred := by
    rw [scanString_spec]
  have h := allChecks_eval
  unfold allChecks at h
  cases hg : gunzipCore JS_SLIDER_GZIP with
  | error e =>
    rw [hg] at h
    replace h : false = true := h
    exact Bool.noConfusion h
  | ok p =>
    obtain ⟨l, a⟩ := p
    rw [hg] at h
    replace h : (decide (l = 2868) && decide (a < 256 ^ 2868) &&
        decide ((scanString strPred JS_SLIDER).1 = 2870) &&
        decide ((scanString strPred JS_SLIDER).2.1 = 10 * 256 ^ 2869 + a * 256 + 10) &&
        (scanString strPred JS_SLIDER).2.2) = true := h
    rw [Bool.and_eq_true] at h
    obtain ⟨h, h5⟩ := h
    rw [Bool.and_eq_true] at h
    obtain ⟨h, h4⟩ := h
    rw [Bool.and_eq_true] at h
    obtain ⟨h, h3⟩ := h
    rw [Bool.and_eq_true] at h
    obtain ⟨h1, h2⟩ := h
    have p1 : l = 2868 := of_decide_eq_true h1
    have p2 : a < 256 ^ 2868 := of_decide_eq_true h2
    have p3 : (JS_SLIDER.data.map Char.toNat).length = 2870 :=
      hs1.symm.trans (of_decide_eq_true h3)
    have p4 : bytesToNat (JS_SLIDER.data.map Char.toNat) = 10 * 256 ^ 2869 + a * 256 + 10 :=
      hs2.symm.trans (of_decide_eq_true h4)
    have p5 : (JS_SLIDER.data.map Char.toNat).all strPred = true := hs3.symm.trans h5
    have hLen : coreLen = l := by unfold coreLen; rw [hg]
    have hM : coreM = a := by unfold coreM; rw [hg]
    refine ⟨?_, ?_, ?_, ?_, ?_, ?_⟩
    · unfold gunzip JS_SLIDER_inflated
      rw [hg, hLen, hM]
    · rw [hLen]; exact p1
    · rw [hM]; exact p2
    · exact p3
    · rw [hM]; exact p4
    · exact p5

theorem mem_JS_SLIDER_bytes (b : Nat) (hb : b ∈ JS_SLIDER_bytes) : b < 256 ∧ b ≠ 0 := by
  have hall := gunzip_facts.2.2.2.2.2
  have hp := List.all_eq_true.mp hall b hb
  unfold strPred at hp
  rw [Bool.and_eq_true] at hp
  obtain ⟨hlt, hnz⟩ := hp
  exact ⟨by simpa using hlt, Nat.ne_of_beq_eq_false (by simpa using hnz)⟩

theorem JS_SLIDER_inflated_length : JS_SLIDER_inflated.length = 2868 := by
  unfold JS_SLIDER_inflated
  rw [length_natToBytes, gunzip_facts.2.1]

theorem mem_JS_SLIDER_inflated (b : Nat) (hb : b ∈ JS_SLIDER_inflated) : b < 256 :=
  mem_natToBytes_lt _ _ b hb

theorem JS_SLIDER_inflated_bytesToNat : bytesToNat JS_SLIDER_inflated = coreM := by
  unfold JS_SLIDER_inflated
  refine bytesToNat_natToBytes coreLen coreM ?hlt
  rw [gunzip_facts.2.1]
  exact gunzip_facts.2.2.1

/-- The content of `JS_SLIDER` is exactly a newline, the decompressed
bytes, and a final newline. -/
theorem JS_SLIDER_bytes_decomp :
    JS_SLIDER_bytes = 10 :: (JS_SLIDER_inflated ++ [10]) := by
  have hmem : ∀ b ∈ JS_SLIDER_bytes, b < 256 := fun b hb => (mem_JS_SLIDER_bytes b hb).1
  have hR_len : (10 :: (JS_SLIDER_inflated ++ [10])).length = 2870 := by
    simp [JS_SLIDER_inflated_length]
  have hR_mem : ∀ b ∈ 10 :: (JS_SLIDER_inflated ++ [10]), b < 256 := by
    intro b hb
    simp only [List.mem_cons, List.mem_append] at hb
    rcases hb with h | h | h
    · omega
    · exact mem_JS_SLIDER_inflated b h
    · simp at h; omega
  have h10 : bytesToNat [10] = 10 := by unfold bytesToNat; simp
  have hR_btn :
      bytesToNat (10 :: (JS_SLIDER_inflated ++ [10])) =
        10 * 256 ^ 2869 + coreM * 256 + 10 := by
    rw [bytesToNat_cons, bytesToNat_append, h10, JS_SLIDER_inflated_bytesToNat]
    simp only [List.length_append, List.length_cons, List.length_nil,
      JS_SLIDER_inflated_length]
    norm_num
    ring
  calc JS_SLIDER_bytes
      = natToBytes JS_SLIDER_bytes.length (bytesToNat JS_SLIDER_bytes) :=
        (natToBytes_bytesToNat JS_SLIDER_bytes hmem).symm
    _ = natToBytes 2870 (10 * 256 ^ 2869 + coreM * 256 + 10) := by
        rw [gunzip_facts.2.2.2.1, gunzip_facts.2.2.2.2.1]
    _ = natToBytes (10 :: (JS_SLIDER_inflated ++ [10])).length
          (bytesToNat (10 :: (JS_SLIDER_inflated ++ [10]))) := by
        rw [hR_len, hR_btn]
    _ = 10 :: (JS_SLIDER_inflated ++ [10]) :=
        natToBytes_bytesToNat _ hR_mem

theorem cStrLen_append_nul :
    ∀ l : List Nat, (∀ b ∈ l, b ≠ 0) → cStrLen (l ++ [0]) = l.length := by
  intro l
  induction l with
  | nil => intro _; rfl
  | cons a t ih =>
    intro h
    have ha : a ≠ 0 := h a (by simp)
    have hb : a.beq 0 = false := by
      cases hab : a.beq 0
      · rfl
      · exact absurd (Nat.eq_of_beq_eq_true hab) ha
    simp only [List.cons_append, cStrLen, hb, cond_false, List.length_cons]
    show cStrLen (t ++ [0]) + 1 = t.length + 1
    rw [ih fun b hbm => h b (by simp [hbm])]

theorem getD_append_left :
    ∀ (l1 l2 : List Nat) (i : Nat), i < l1.length → (l1 ++ l2).getD i 0 = l1.getD i 0 := by
  intro l1
  induction l1 with
  | nil => intro l2 i h; simp at h
  | cons a t ih =>
    intro l2 i h
    cases i with
    | zero => rfl
    | succ j =>
      simp only [List.cons_append, List.getD_cons_succ]
      refine ih l2 j ?hj
      simp only [List.length_cons] at h
      omega

/-! ### The claims -/

/-- C1, counterexample to the claim as stated: decompressing
`JS_SLIDER_GZIP` succeeds, but its 2868-byte output is not the byte
sequence of `JS_SLIDER`, whose content is 2870 bytes long. -/
theorem C1_counterexample :
    gunzip JS_SLIDER_GZIP = Except.ok JS_SLIDER_inflated ∧
    JS_SLIDER_inflated.length = 2868 ∧
    JS_SLIDER_bytes.length = 2870 ∧
    JS_SLIDER_inflated ≠ JS_SLIDER_bytes := by
  refine ⟨gunzip_facts.1, JS_SLIDER_inflated_length, gunzip_facts.2.2.2.1, ?hne⟩
  intro he
  have h1 := JS_SLIDER_inflated_length
  rw [he, gunzip_facts.2.2.2.1] at h1
  omega

/-- C1, amended: decompressing `JS_SLIDER_GZIP` yields exactly the byte
sequence of `JS_SLIDER` with the leading and the trailing newline
removed: the content of `JS_SLIDER` is a newline, the decompressed
bytes, and a newline; the decompressed length is the content length
minus two; and the i-th decompressed byte is the (i+1)-th content byte. -/
theorem C1_theorem :
    gunzip JS_SLIDER_GZIP = Except.ok JS_SLIDER_inflated ∧
    JS_SLIDER_bytes = 10 :: (JS_SLIDER_inflated ++ [10]) ∧
    JS_SLIDER_inflated.length = JS_SLIDER_bytes.length - 2 ∧
    (∀ i : Nat, i < JS_SLIDER_inflated.length →
      JS_SLIDER_inflated.getD i 0 = JS_SLIDER_bytes.getD (i + 1) 0) := by
  refine ⟨gunzip_facts.1, JS_SLIDER_bytes_decomp, ?hlen, ?hidx⟩
  case hlen =>
    rw [JS_SLIDER_inflated_length, gunzip_facts.2.2.2.1]
  case hidx =>
    intro i hi
    rw [JS_SLIDER_bytes_decomp, List.getD_cons_succ,
      getD_append_left JS_SLIDER_inflated [10] i hi]

/-- C1 witness: the first decompressed byte equals the second content
byte of `JS_SLIDER`. -/
theorem C1_witness :
    0 < JS_SLIDER_inflated.length ∧
    JS_SLIDER_inflated.getD 0 0 = JS_SLIDER_bytes.getD 1 0 := by
  have hpos : 0 < JS_SLIDER_inflated.length := by
    rw [JS_SLIDER_inflated_length]
    omega
  exact ⟨hpos, C1_theorem.2.2.2 0 hpos⟩

/-- C2: the 869 bytes of `JS_SLIDER_GZIP` form one well-formed gzip
member — magic bytes 31 139, compression method 8 — and the
decompressor, which checks the DEFLATE stream, the CRC-32 and the
ISIZE trailer, returns `Except.ok` rather than an error. -/
theorem C2_theorem :
    gunzip JS_SLIDER_GZIP = Except.ok JS_SLIDER_inflated ∧
    JS_SLIDER_GZIP.length = 869 ∧
    JS_SLIDER_GZIP.getD 0 0 = 31 ∧
    JS_SLIDER_GZIP.getD 1 0 = 139 ∧
    JS_SLIDER_GZIP.getD 2 0 = 8 :=
  ⟨gunzip_facts.1, gz_length, gz_magic_eval.1, gz_magic_eval.2.1, gz_magic_eval.2.2⟩

/-- C3: the repository defines no operation that mutates either
constant, so every reachable firmware state still holds the initial
byte contents of both buffers. -/
theorem C3_theorem (s : FirmwareState) (h : FirmwareReachable s) :
    s.slider = JS_SLIDER_carray ∧ s.sliderGzip = JS_SLIDER_GZIP := by
  induction h with
  | init => exact ⟨rfl, rfl⟩
  | step hr hstep ih => cases hstep

/-- C3 witness: the invariant holds at the initial state. -/
theorem C3_witness :
    (FirmwareState.mk JS_SLIDER_carray JS_SLIDER_GZIP).slider = JS_SLIDER_carray ∧
    (FirmwareState.mk JS_SLIDER_carray JS_SLIDER_GZIP).sliderGzip = JS_SLIDER_GZIP :=
  C3_theorem (FirmwareState.mk JS_SLIDER_carray JS_SLIDER_GZIP) FirmwareReachable.init

/-- C4: the translation unit consists of exactly two declarations, the
flash constants `JS_SLIDER` and `JS_SLIDER_GZIP`, and contains no
function and no mutable variable. -/
theorem C4_theorem :
    dataSliderJS_decls.length = 2 ∧
    dataSliderJS_decls.map CppDecl.declName = ["JS_SLIDER", "JS_SLIDER_GZIP"] ∧
    dataSliderJS_decls.all CppDecl.isFlashConstant = true ∧
    dataSliderJS_decls.all
      (fun d => !(d.isFunction) && !(d.isMutableVar)) = true :=
  ⟨rfl, rfl, rfl, rfl⟩

/-- C5: the array is declared with size 869, its initializer supplies
exactly 869 values, and each value fits in a `uint8_t`. -/
theorem C5_theorem :
    JS_SLIDER_GZIP.length = JS_SLIDER_GZIP_declaredSize ∧
    JS_SLIDER_GZIP.all (fun b => b.blt 256) = true :=
  ⟨gz_length, gz_all_lt⟩

/-- C6, counterexample to the claim as stated: the ISIZE field does
read 52 11 0 0, little-endian 2868, but the `JS_SLIDER` content is
2870 bytes long, not 2868. -/
theorem C6_counterexample :
    JS_SLIDER_GZIP.drop (JS_SLIDER_GZIP.length - 4) = [52, 11, 0, 0] ∧
    le32At [52, 11, 0, 0] = 2868 ∧
    JS_SLIDER_bytes.length ≠ 2868 := by
  refine ⟨?hdrop, rfl, ?hne⟩
  case hdrop => rw [gz_length]; exact gz_drop_eval
  case hne => rw [gunzip_facts.2.2.2.1]; omega

/-- C6, amended: the last four bytes of `JS_SLIDER_GZIP`, read
little-endian, equal 2868, which is the length of the decompressed
output — the length of the `JS_SLIDER` content minus its leading and
trailing newline bytes. -/
theorem C6_theorem :
    JS_SLIDER_GZIP.drop (JS_SLIDER_GZIP.length - 4) = [52, 11, 0, 0] ∧
    le32At [52, 11, 0, 0] = 2868 ∧
    JS_SLIDER_inflated.length = 2868 ∧
    JS_SLIDER_bytes.length - 2 = 2868 := by
  refine ⟨?hdrop, rfl, JS_SLIDER_inflated_length, ?hlen⟩
  case hdrop => rw [gz_length]; exact gz_drop_eval
  case hlen => rw [gunzip_facts.2.2.2.1]

/-- C7: no byte of the `JS_SLIDER` content is NUL, so a
NUL-terminator scan over the stored character array measures exactly
the full script text. -/
theorem C7_theorem :
    JS_SLIDER_bytes.all (fun b => b != 0) = true ∧
    JS_SLIDER_carray = JS_SLIDER_bytes ++ [0] ∧
    cStrLen JS_SLIDER_carray = JS_SLIDER_bytes.length := by
  refine ⟨?hall, rfl, ?hlen⟩
  case hall =>
    refine List.all_eq_true.mpr ?hmem
    intro b hb
    have hnz := (mem_JS_SLIDER_bytes b hb).2
    show (b != 0) = true
    exact bne_iff_ne.mpr hnz
  case hlen =>
    unfold JS_SLIDER_carray
    exact cStrLen_append_nul JS_SLIDER_bytes fun b hb => (mem_JS_SLIDER_bytes b hb).2
